import Mathlib

/-!
Shallow embedding of `src/pages/index.tsx` of the example-nextjs-apollo-pagination
repository: a Next.js page showing a searchable, paginated photo table backed by a
GraphQL `Photos(q, page, limit)` query, with a debounced search box, URL-driven
state (`q` and `page` query parameters), pagination buttons, and a photo modal.

JavaScript numbers that can be `NaN` (the result of `parseInt` on a digit-free
string) are embedded as `Option Int`, with `none` playing the role of `NaN`:
arithmetic on `none` yields `none` and every `===` comparison against `none` is
`false`, exactly as for `NaN` in JavaScript.
-/

set_option autoImplicit false

namespace NextApollo

/-- A JavaScript number restricted to the values this page can produce:
an integer, or `NaN` (embedded as `none`). -/
abbrev JsNum := Option Int

/-- JavaScript `+` on `JsNum`: `NaN` propagates. -/
def jsAdd : JsNum → JsNum → JsNum
  | some a, some b => some (a + b)
  | _, _ => none

/-- JavaScript `-` on `JsNum`: `NaN` propagates. -/
def jsSub : JsNum → JsNum → JsNum
  | some a, some b => some (a - b)
  | _, _ => none

/-- JavaScript `===` on `JsNum`: `NaN === x` is `false` for every `x`. -/
def jsEq : JsNum → JsNum → Bool
  | some a, some b => a == b
  | _, _ => false

/-- JavaScript `Math.max` on two `JsNum`s: `NaN` propagates. -/
def jsMax : JsNum → JsNum → JsNum
  | some a, some b => some (max a b)
  | _, _ => none

/-- JavaScript `Math.min` on two `JsNum`s: `NaN` propagates. -/
def jsMin : JsNum → JsNum → JsNum
  | some a, some b => some (min a b)
  | _, _ => none

/-- The whitespace characters skipped by JavaScript `parseInt`. -/
def jsWhitespace (c : Char) : Bool :=
  c == ' ' || c == '\t' || c == '\n' || c == '\r' || c == '\x0b' || c == '\x0c'

/-- Value of a list of decimal digit characters, most significant first. -/
def digitsToNat (ds : List Char) : Nat :=
  ds.foldl (fun a c => a * 10 + (c.toNat - 48)) 0

/-- JavaScript `parseInt(s, 10)`: skip leading whitespace, read an optional
sign, then the longest prefix of decimal digits; `NaN` (`none`) if that
prefix is empty. -/
def jsParseInt10 (s : String) : JsNum :=
  let cs := s.data.dropWhile jsWhitespace
  let signAndRest : Bool × List Char :=
    match cs with
    | '-' :: r => (true, r)
    | '+' :: r => (false, r)
    | _ => (false, cs)
  let ds := signAndRest.2.takeWhile Char.isDigit
  if ds.isEmpty then none
  else if signAndRest.1 then some (-(digitsToNat ds : Int))
  else some (digitsToNat ds : Int)

/-- A Next.js router/context query parameter value: absent, a single string,
or an array of strings (repeated parameter). -/
inductive QueryVal where
  | absent
  | str (s : String)
  | arr (l : List String)
deriving DecidableEq

/-- JavaScript truthiness of a query parameter value: `undefined` is falsy,
a string is truthy iff non-empty, an array is always truthy. -/
def qvTruthy : QueryVal → Bool
  | .absent => false
  | .str s => !(s == "")
  | .arr _ => true

/-- `typeof v === 'string'`. -/
def qvIsString : QueryVal → Bool
  | .str _ => true
  | _ => false

/-- The string carried by a `.str` value (only consulted under `qvIsString`). -/
def qvString : QueryVal → String
  | .str s => s
  | _ => ""

/-- The URL query of the page: the `q` and `page` parameters
(`router.query` on the client, `context.query` on the server). -/
structure RouterQuery where
  q : QueryVal
  page : QueryVal
deriving DecidableEq

/-- `index.tsx` lines 62-65: the search term the page derives from the URL,
`router?.query?.q && typeof router.query.q === 'string' ? router.query.q : ''`. -/
def clientQ (v : QueryVal) : String :=
  if qvTruthy v && qvIsString v then qvString v else ""

/-- `index.tsx` lines 66-69: the current page the page derives from the URL,
`router?.query?.page && typeof ... === 'string' ? parseInt(..., 10) : 1`. -/
def clientPage (v : QueryVal) : JsNum :=
  if qvTruthy v && qvIsString v then jsParseInt10 (qvString v) else some 1

/-- Variables of the `Photos` GraphQL query. -/
structure PhotosVars where
  q : String
  page : JsNum
  limit : Nat
deriving DecidableEq

/-- `index.tsx` lines 89-101: the variables the client-side `useQuery` passes,
`q: typeof router?.query?.q === 'string' ? router.query.q : ''` and
`page: typeof router?.query?.page === 'string' ? parseInt(router?.query?.page, 10) : 1`
(no truthiness check), with `limit: LIST_LIMIT`. `LIST_LIMIT` lives in
`src/lib/configs` and is threaded through as the `limit` argument. -/
def useQueryVars (limit : Nat) (rq : RouterQuery) : PhotosVars :=
  { q := if qvIsString rq.q then qvString rq.q else ""
    page := if qvIsString rq.page then jsParseInt10 (qvString rq.page) else some 1
    limit := limit }

/-- `index.tsx` lines 220-233: the variables of the server-side pre-fetch in
`getServerSideProps`, `q: context.query.q && typeof context.query.q === 'string' ? ... : ''`
and `page: context.query.page && typeof ... === 'string' ? parseInt(context.query.page, 10) : 1`
(with truthiness check), with `limit: LIST_LIMIT`. -/
def serverQueryVars (limit : Nat) (cq : RouterQuery) : PhotosVars :=
  { q := if qvTruthy cq.q && qvIsString cq.q then qvString cq.q else ""
    page := if qvTruthy cq.page && qvIsString cq.page then jsParseInt10 (qvString cq.page) else some 1
    limit := limit }

/-- The `q` derivation exactly as the specification words it: the string value
of the `q` parameter, defaulting to the empty string when the parameter is
absent or not a single string. -/
def specQ : QueryVal → String
  | .str s => s
  | _ => ""

/-- The `page` derivation exactly as the specification words it: the base-10
integer parse of the `page` parameter, defaulting to 1 when the parameter is
absent or not a single string. -/
def specPage : QueryVal → JsNum
  | .str s => jsParseInt10 s
  | _ => some 1

/-- The `page` derivation as amended: it also defaults to 1 when the parameter
is the empty string (which is falsy in JavaScript). -/
def specPageAmended : QueryVal → JsNum
  | .str s => if s = "" then some 1 else jsParseInt10 s
  | _ => some 1

/-- A photo record as returned by the GraphQL API (`Photo` in `index.tsx`). -/
structure Photo where
  id : Nat
  title : String
  url : String
  thumbnailUrl : String
deriving DecidableEq

/-- The payload of a successful `Photos` query (`PhotosData` in `index.tsx`,
flattening `photos.data` and `photos.meta.totalCount`). -/
structure PhotosData where
  data : List Photo
  totalCount : Nat
deriving DecidableEq

/-- Everything the render body of `IndexPage` reads: the `useQuery` result
(`data`, `error`, `loading`), the local `search` state, the derived `page`,
the `LIST_LIMIT` constant and the `selectedPhoto` state. -/
structure RenderInput where
  error : Bool
  loading : Bool
  data : Option PhotosData
  search : String
  page : JsNum
  limit : Nat
  selectedPhoto : Option Photo
deriving DecidableEq

/-- `Nat` ceiling division, the value of `Math.ceil(a / b)` for natural
operands and `b > 0`. -/
def ceilDiv (a b : Nat) : Nat := (a + b - 1) / b

/-- `index.tsx` lines 117-119:
`data?.photos?.meta?.totalCount ? Math.ceil(totalCount / LIST_LIMIT) : 0`. -/
def lastPageOf (data : Option PhotosData) (limit : Nat) : Nat :=
  match data with
  | some d => if d.totalCount = 0 then 0 else ceilDiv d.totalCount limit
  | none => 0

/-- `disabled={page === 1}` on `Pagination.First` (line 176). -/
def isFirstDisabled (page : JsNum) : Bool := jsEq page (some 1)

/-- `disabled={page === 1}` on `Pagination.Prev` (line 180). -/
def isPrevDisabled (page : JsNum) : Bool := jsEq page (some 1)

/-- `disabled={page === lastPage}` on `Pagination.Next` (line 195). -/
def isNextDisabled (page : JsNum) (lastPage : Nat) : Bool :=
  jsEq page (some (lastPage : Int))

/-- `disabled={page === lastPage}` on `Pagination.Last` (line 199). -/
def isLastDisabled (page : JsNum) (lastPage : Nat) : Bool :=
  jsEq page (some (lastPage : Int))

/-- lodash `range(a, b)`: the integers from `a` (inclusive) to `b` (exclusive),
empty when `a >= b` or when either bound is `NaN`. -/
def jsRange (a b : JsNum) : List Int :=
  match a, b with
  | some a, some b => (List.range (b - a).toNat).map (fun i => a + i)
  | _, _ => []

/-- Lines 182-192: the numbered page buttons,
`range(Math.max(1, page - 2), Math.min(lastPage + 1, page + 3))`, each paired
with its `active={p === page}` flag. -/
def paginationItems (page : JsNum) (lastPage : Nat) : List (Int × Bool) :=
  (jsRange (jsMax (some 1) (jsSub page (some 2)))
      (jsMin (some ((lastPage : Int) + 1)) (jsAdd page (some 3)))).map
    (fun p => (p, jsEq (some p) page))

/-- The rendered pagination block (lines 173-201). -/
structure PaginationView where
  firstDisabled : Bool
  prevDisabled : Bool
  items : List (Int × Bool)
  nextDisabled : Bool
  lastDisabled : Bool
deriving DecidableEq

/-- The rendered page in the non-error case (lines 129-212): search box value,
table rows, spinner, the pagination block (present only when `totalCount` is
truthy, line 172), and the modal (`show={!!selectedPhoto}`,
`src={selectedPhoto?.url}`, lines 206-211). -/
structure PageView where
  searchValue : String
  rows : List Photo
  showSpinner : Bool
  pagination : Option PaginationView
  modalShow : Bool
  modalSrc : Option String
deriving DecidableEq

/-- What `IndexPage` returns: either the bare error paragraph (line 127) or
the full page. -/
inductive View where
  | errorText (msg : String)
  | page (pv : PageView)
deriving DecidableEq

/-- The non-error render body of `IndexPage` (lines 129-212). -/
def renderPage (inp : RenderInput) : PageView :=
  { searchValue := inp.search
    rows := match inp.data with | some d => d.data | none => []
    showSpinner := inp.loading
    pagination :=
      match inp.data with
      | some d =>
          if d.totalCount ≠ 0 then
            some { firstDisabled := isFirstDisabled inp.page
                   prevDisabled := isPrevDisabled inp.page
                   items := paginationItems inp.page (lastPageOf inp.data inp.limit)
                   nextDisabled := isNextDisabled inp.page (lastPageOf inp.data inp.limit)
                   lastDisabled := isLastDisabled inp.page (lastPageOf inp.data inp.limit) }
          else none
      | none => none
    modalShow := inp.selectedPhoto.isSome
    modalSrc := inp.selectedPhoto.map Photo.url }

/-- `IndexPage`'s render: `if (error) return <p>Error</p>;` (line 127), else
the full page. -/
def render (inp : RenderInput) : View :=
  if inp.error then View.errorText "Error" else View.page (renderPage inp)

/-- `handleSelectPhoto` (lines 109-112): the new `selectedPhoto` state after a
row is selected. -/
def handleSelectPhoto (p : Photo) : Option Photo := some p

/-- `handleModalHide` (lines 113-115): the new `selectedPhoto` state after the
modal is hidden. -/
def handleModalHide : Option Photo := none

/-- The target of a shallow `router.push`: the `q` and `page` components of the
template URL the page navigates to. -/
structure Nav where
  q : String
  page : JsNum
deriving DecidableEq

/-- `setPage` (lines 81-86): pushes `` `/?q=${q}&page=${page}` `` for the current
URL `q` and the requested page. -/
def setPageNav (q : String) (p : JsNum) : Nav := ⟨q, p⟩

/-- `handleFirstClick` (line 116): `setPage(1)`. -/
def firstClickNav (q : String) : Nav := setPageNav q (some 1)

/-- `handlePrevClick` (line 124): `setPage(page - 1)`. -/
def prevClickNav (q : String) (page : JsNum) : Nav := setPageNav q (jsSub page (some 1))

/-- `handleNextClick` (line 125): `setPage(page + 1)`. -/
def nextClickNav (q : String) (page : JsNum) : Nav := setPageNav q (jsAdd page (some 1))

/-- `handleLastClick` (lines 120-123): `setPage(lastPage)`. -/
def lastClickNav (q : String) (lastPage : Nat) : Nav := setPageNav q (some (lastPage : Int))

/-- A numbered page button: `PaginationItem` receives `page={p}` and
`onSelect={setPage}` (lines 186-191) and invokes `setPage(p)`. -/
def itemClickNav (q : String) (p : Int) : Nav := setPageNav q (some p)

/-! ## The debounce effect (lines 70-80) as a small-step machine

`useEffect(() => { const handler = setTimeout(() => { if (search !== q)
push(`/?q=${search}&page=1`, ...) }, 500); return () => clearTimeout(handler); },
[search, q])` together with `handleSearchChange` (lines 102-108), which sets the
local `search` state and immediately calls `setPage(1)`.

States carry the local `search` state, the URL `q`, the scheduled timers, and
the handler id the last effect run would clear. React runs the effect after the
first render and again after any render in which a dependency (`search` or `q`)
changed, first invoking the previous run's cleanup (`clearTimeout(handler)`). -/

/-- A scheduled `setTimeout` call: its id and its delay in milliseconds. -/
structure Timer where
  id : Nat
  delay : Nat
deriving DecidableEq

/-- The machine state for the debounce effect. -/
structure DState where
  search : String
  q : String
  current : Option Nat
  pending : List Timer
  nextId : Nat
deriving DecidableEq

/-- The cleanup of the previous effect run: `clearTimeout(handler)` removes the
timer the previous run scheduled (a no-op if it already fired). -/
def clearCurrent (st : DState) : List Timer :=
  match st.current with
  | none => st.pending
  | some h => st.pending.filter (fun t => t.id != h)

/-- One effect run: clear the previously scheduled timer, then schedule a fresh
500 ms timer and remember its handle. -/
def schedule (st : DState) : DState :=
  { st with pending := clearCurrent st ++ [⟨st.nextId, 500⟩]
            current := some st.nextId
            nextId := st.nextId + 1 }

/-- The state after the first render: `search` initialised to the URL `q`
(`useState<string>(q)`, line 70) and the effect run once. -/
def initState (q0 : String) : DState :=
  schedule { search := q0, q := q0, current := none, pending := [], nextId := 0 }

/-- `handleSearchChange` with new input value `s`: `setSearch(s)` and
`setPage(1)`, which pushes `` `/?q=${q}&page=1` `` with the current URL `q`
(leaving the URL `q` unchanged); the effect re-runs exactly when a dependency
changed, i.e. when `s` differs from the previous `search`. Returns the new
state and the pushed navigation. -/
def stepInput (st : DState) (s : String) : DState × Option Nav :=
  if s = st.search then ({ st with search := s }, some ⟨st.q, some 1⟩)
  else (schedule { st with search := s }, some ⟨st.q, some 1⟩)

/-- Timer `t` fires: it is removed from the pending set, and its callback runs
`if (search !== q) push(`/?q=${search}&page=1`, ...)`. A push changes the URL
`q` to `search`, so the effect re-runs (its `q` dependency changed). A timer
not pending (already cleared or fired) does nothing. -/
def stepFire (st : DState) (t : Timer) : DState × Option Nav :=
  if t ∈ st.pending then
    if st.search = st.q then
      ({ st with pending := st.pending.filter (fun u => u.id != t.id) }, none)
    else
      (schedule { st with pending := st.pending.filter (fun u => u.id != t.id), q := st.search },
        some ⟨st.search, some 1⟩)
  else (st, none)

/-- An event: a search-box input, or a scheduled timer firing. -/
inductive DEvent where
  | input (s : String)
  | fire (t : Timer)

/-- One step of the machine. -/
def step (st : DState) : DEvent → DState × Option Nav
  | .input s => stepInput st s
  | .fire t => stepFire st t

/-- The states reachable from the initial render for URL search term `q0`. -/
inductive Reachable (q0 : String) : DState → Prop where
  | init : Reachable q0 (initState q0)
  | step : ∀ {st : DState} (e : DEvent), Reachable q0 st → Reachable q0 (step st e).1

/-- The structural invariant of the effect: either no timer is pending, or
exactly the one scheduled by the last effect run, with a 500 ms delay. -/
def GoodState (st : DState) : Prop :=
  st.pending = [] ∨ ∃ t, st.pending = [t] ∧ st.current = some t.id ∧ t.delay = 500

theorem goodState_schedule {st : DState} (h : GoodState st) : GoodState (schedule st) := by
  rcases h with h | ⟨t, hp, hc, _⟩
  · right
    exact ⟨⟨st.nextId, 500⟩, by simp [schedule, clearCurrent, h]; cases st.current <;> simp, rfl, rfl⟩
  · right
    refine ⟨⟨st.nextId, 500⟩, ?_, rfl, rfl⟩
    simp [schedule, clearCurrent, hp, hc, List.filter]

theorem schedule_pending_ne {st : DState} : (schedule st).pending ≠ [] := by
  simp [schedule]

theorem goodState_filter_fired {st : DState} {t : Timer} (hg : GoodState st)
    (hin : t ∈ st.pending) :
    st.pending.filter (fun u => u.id != t.id) = [] := by
  rcases hg with h | ⟨u, hp, _, _⟩
  · rw [h] at hin
    simp at hin
  · rw [hp] at hin
    have ht : t = u := by simpa using hin
    simp [hp, ht, List.filter_cons]

theorem goodState_stepInput {st : DState} (s : String) (hg : GoodState st) :
    GoodState (stepInput st s).1 := by
  unfold stepInput
  by_cases hss : s = st.search
  · simp only [if_pos hss]
    rcases hg with h | ⟨t, hp, hc, hd⟩
    · exact Or.inl h
    · exact Or.inr ⟨t, hp, hc, hd⟩
  · simp only [if_neg hss]
    refine goodState_schedule ?_
    rcases hg with h | ⟨t, hp, hc, hd⟩
    · exact Or.inl h
    · exact Or.inr ⟨t, hp, hc, hd⟩

theorem goodState_stepFire {st : DState} (t : Timer) (hg : GoodState st) :
    GoodState (stepFire st t).1 := by
  unfold stepFire
  by_cases hin : t ∈ st.pending
  · simp only [if_pos hin]
    by_cases heq : st.search = st.q
    · simp only [if_pos heq]
      exact Or.inl (goodState_filter_fired hg hin)
    · simp only [if_neg heq]
      exact goodState_schedule (Or.inl (goodState_filter_fired hg hin))
  · simp only [if_neg hin]
    exact hg

theorem reachable_good {q0 : String} {st : DState} (h : Reachable q0 st) :
    GoodState st ∧ (st.search ≠ st.q → st.pending ≠ []) := by
  induction h with
  | init =>
      exact ⟨goodState_schedule (Or.inl rfl), fun _ => schedule_pending_ne⟩
  | step e _ ih =>
      obtain ⟨hg, hs⟩ := ih
      rename_i st _
      cases e with
      | input s =>
          refine ⟨goodState_stepInput s hg, ?_⟩
          show (stepInput st s).1.search ≠ (stepInput st s).1.q → (stepInput st s).1.pending ≠ []
          unfold stepInput
          by_cases hss : s = st.search
          · simp only [if_pos hss]
            intro hne
            exact hs (by simpa [hss] using hne)
          · simp only [if_neg hss]
            intro _
            exact schedule_pending_ne
      | fire t =>
          refine ⟨goodState_stepFire t hg, ?_⟩
          show (stepFire st t).1.search ≠ (stepFire st t).1.q → (stepFire st t).1.pending ≠ []
          unfold stepFire
          by_cases hin : t ∈ st.pending
          · simp only [if_pos hin]
            by_cases heq : st.search = st.q
            · simp only [if_pos heq]
              intro hne
              exact absurd heq (by simpa using hne)
            · simp only [if_neg heq]
              intro _
              exact schedule_pending_ne
          · simp only [if_neg hin]
            exact hs

/-! ## Helper lemmas -/

theorem jsEq_some_iff (p : JsNum) (n : Int) : jsEq p (some n) = true ↔ p = some n := by
  cases p with
  | none => simp [jsEq]
  | some a => simp [jsEq]

theorem ceilDiv_spec (a b : Nat) (ha : 0 < a) (hb : 0 < b) :
    a ≤ ceilDiv a b * b ∧ (ceilDiv a b - 1) * b < a := by
  have h1 := Nat.div_add_mod (a + b - 1) b
  have h2 : (a + b - 1) % b < b := Nat.mod_lt _ hb
  have e1 : ceilDiv a b * b = b * ((a + b - 1) / b) := by
    unfold ceilDiv
    exact Nat.mul_comm _ _
  have e2 : (ceilDiv a b - 1) * b = ceilDiv a b * b - b :=
    Nat.sub_one_mul _ _
  omega

/-! ## The claims -/

/-- Claim C3 as literally stated fails on the empty-string `page` parameter:
`page=` (an empty single string) is falsy, so the code takes the default 1,
while the claimed derivation (`parseInt` of any single string) yields `NaN`. -/
theorem url_derivation_empty_page_counterexample :
    clientPage (QueryVal.str "") = some 1 ∧
    specPage (QueryVal.str "") = none ∧
    clientPage (QueryVal.str "") ≠ specPage (QueryVal.str "") := by
  decide

/-- Claim C3 (amended): for every URL query value, the search term `q` is the
string value of the `q` parameter, defaulting to the empty string when the
parameter is absent or not a single string; the page is `parseInt(page, 10)`
when the `page` parameter is a non-empty single string, and defaults to 1 when
the parameter is absent, the empty string, or not a single string. -/
theorem url_state_derivation (v w : QueryVal) :
    clientQ v = specQ v ∧ clientPage w = specPageAmended w := by
  constructor
  · cases v with
    | absent => rfl
    | arr l => rfl
    | str s =>
        by_cases hs : s = ""
        · simp [clientQ, specQ, qvTruthy, qvIsString, qvString, hs]
        · simp [clientQ, specQ, qvTruthy, qvIsString, qvString, hs]
  · cases w with
    | absent => rfl
    | arr l => rfl
    | str s =>
        by_cases hs : s = ""
        · simp [clientPage, specPageAmended, qvTruthy, qvIsString, qvString, hs]
        · simp [clientPage, specPageAmended, qvTruthy, qvIsString, qvString, hs]

/-- Claim C5: both the client-side `useQuery` fetch and the server-side
pre-fetch pass the fixed page-size constant unchanged as the `limit` variable,
for every URL query and every request context; the limit never depends on
them. -/
theorem limit_is_fixed_constant (limit : Nat) (rq cq : RouterQuery) :
    (useQueryVars limit rq).limit = limit ∧ (serverQueryVars limit cq).limit = limit :=
  ⟨rfl, rfl⟩

/-- Claim C8 as literally stated fails on the empty-string `page` parameter:
for `page=`, `getServerSideProps` pre-fetches page 1 (truthiness check) while
the client's `useQuery` requests page `NaN` (`typeof` check only), so the
hydrated cache entry is not the one the client asks for. -/
theorem server_client_vars_counterexample :
    (serverQueryVars 10 ⟨QueryVal.absent, QueryVal.str ""⟩).page = some 1 ∧
    (useQueryVars 10 ⟨QueryVal.absent, QueryVal.str ""⟩).page = none ∧
    serverQueryVars 10 ⟨QueryVal.absent, QueryVal.str ""⟩ ≠
      useQueryVars 10 ⟨QueryVal.absent, QueryVal.str ""⟩ := by
  decide

/-- Claim C8 (amended): whenever the `page` parameter is not the empty string,
the server-side pre-fetch computes exactly the variables the client-side
`useQuery` computes from the same URL query (`q` defaults to `''`, `page` to
1), so the hydrated cache state matches the client-side request. -/
theorem server_client_vars_agree (limit : Nat) (rq : RouterQuery)
    (h : rq.page ≠ QueryVal.str "") :
    serverQueryVars limit rq = useQueryVars limit rq := by
  obtain ⟨vq, vp⟩ := rq
  have hq : (if qvTruthy vq && qvIsString vq then qvString vq else "") =
      (if qvIsString vq then qvString vq else "") := by
    cases vq with
    | absent => rfl
    | arr l => rfl
    | str s =>
        by_cases hs : s = ""
        · simp [qvTruthy, qvIsString, qvString, hs]
        · simp [qvTruthy, qvIsString, qvString, hs]
  have hp : (if qvTruthy vp && qvIsString vp then jsParseInt10 (qvString vp) else some 1) =
      (if qvIsString vp then jsParseInt10 (qvString vp) else some 1) := by
    cases vp with
    | absent => rfl
    | arr l => rfl
    | str s =>
        have hs : s ≠ "" := fun hs => h (by rw [hs])
        simp [qvTruthy, qvIsString, qvString, hs]
  unfold serverQueryVars useQueryVars
  rw [hq, hp]

/-- Witness for C8 (amended) at the concrete query `?q=x&page=2`. -/
theorem server_client_vars_agree_witness :
    serverQueryVars 10 ⟨QueryVal.str "x", QueryVal.str "2"⟩ =
      useQueryVars 10 ⟨QueryVal.str "x", QueryVal.str "2"⟩ :=
  server_client_vars_agree 10 ⟨QueryVal.str "x", QueryVal.str "2"⟩ (by decide)

/-- Claim C9: every pagination control navigates through `setPage`, whose push
target carries the current URL `q` unchanged and the requested page: First,
Prev, Next, Last and the numbered buttons all preserve the search term. -/
theorem pagination_preserves_search (q : String) (page : JsNum) (lastPage : Nat)
    (p : Int) (tgt : JsNum) :
    (setPageNav q tgt).q = q ∧ (setPageNav q tgt).page = tgt ∧
    (firstClickNav q).q = q ∧ (firstClickNav q).page = some 1 ∧
    (prevClickNav q page).q = q ∧ (prevClickNav q page).page = jsSub page (some 1) ∧
    (nextClickNav q page).q = q ∧ (nextClickNav q page).page = jsAdd page (some 1) ∧
    (lastClickNav q lastPage).q = q ∧ (lastClickNav q lastPage).page = some (lastPage : Int) ∧
    (itemClickNav q p).q = q ∧ (itemClickNav q p).page = some p := by
  refine ⟨rfl, rfl, rfl, rfl, rfl, rfl, rfl, rfl, rfl, rfl, rfl, rfl⟩

/-- Claim C10's premise fails as stated: `page=-5` does not start with a
decimal digit, yet `parseInt('-5', 10)` is `-5`, not `NaN`, and the page used
is `-5` rather than `NaN`. -/
theorem nan_page_counterexample :
    ("-5".data.head?.map Char.isDigit) = some false ∧
    jsParseInt10 "-5" = some (-5) ∧
    clientPage (QueryVal.str "-5") = some (-5) ∧
    clientPage (QueryVal.str "-5") ≠ none := by
  decide

/-- Claim C10 (amended): if the `page` parameter is a non-empty string on which
`parseInt(s, 10)` yields `NaN` (no decimal digits after optional whitespace and
sign, e.g. `'abc'`), that `NaN` is used unvalidated: it becomes the current
page, is passed as the `page` query variable, flows through the Prev/Next
arithmetic as `NaN`, and makes every boundary comparison false — it never
falls back to the default of 1. -/
theorem nan_page_flows_unvalidated (s : String) (limit lastPage : Nat)
    (hs : s ≠ "") (hp : jsParseInt10 s = none) :
    clientPage (QueryVal.str s) = none ∧
    clientPage (QueryVal.str s) ≠ some 1 ∧
    (useQueryVars limit ⟨QueryVal.absent, QueryVal.str s⟩).page = none ∧
    jsSub (clientPage (QueryVal.str s)) (some 1) = none ∧
    jsAdd (clientPage (QueryVal.str s)) (some 1) = none ∧
    isFirstDisabled (clientPage (QueryVal.str s)) = false ∧
    isPrevDisabled (clientPage (QueryVal.str s)) = false ∧
    isNextDisabled (clientPage (QueryVal.str s)) lastPage = false ∧
    isLastDisabled (clientPage (QueryVal.str s)) lastPage = false := by
  have hc : clientPage (QueryVal.str s) = none := by
    simp [clientPage, qvTruthy, qvIsString, qvString, hs, hp]
  refine ⟨hc, by simp [hc], ?_, by simp [hc, jsSub], by simp [hc, jsAdd],
    by simp [hc, isFirstDisabled, jsEq], by simp [hc, isPrevDisabled, jsEq],
    by simp [hc, isNextDisabled, jsEq], by simp [hc, isLastDisabled, jsEq]⟩
  simp [useQueryVars, qvIsString, qvString, hp]

/-- Witness for C10 (amended) at the concrete parameter `page=abc`. -/
theorem nan_page_flows_unvalidated_witness :
    clientPage (QueryVal.str "abc") = none :=
  (nan_page_flows_unvalidated "abc" 10 3 (by decide) (by decide)).1

/-- Claim C2: in every rendered pagination state (query data present with a
truthy `totalCount`, positive page size), First and Prev are disabled iff the
current page equals 1, and Next and Last are disabled iff the current page
equals the last page `ceil(totalCount / LIST_LIMIT)`; the last two conjuncts
certify that `ceilDiv` is that ceiling. -/
theorem pagination_disabled_at_boundaries (inp : RenderInput) (d : PhotosData)
    (hd : inp.data = some d) (htc : d.totalCount ≠ 0) (hl : 0 < inp.limit) :
    ∃ pg, (renderPage inp).pagination = some pg ∧
      (pg.firstDisabled = true ↔ inp.page = some 1) ∧
      (pg.prevDisabled = true ↔ inp.page = some 1) ∧
      (pg.nextDisabled = true ↔ inp.page = some (ceilDiv d.totalCount inp.limit : Int)) ∧
      (pg.lastDisabled = true ↔ inp.page = some (ceilDiv d.totalCount inp.limit : Int)) ∧
      d.totalCount ≤ ceilDiv d.totalCount inp.limit * inp.limit ∧
      (ceilDiv d.totalCount inp.limit - 1) * inp.limit < d.totalCount := by
  have hlast : lastPageOf inp.data inp.limit = ceilDiv d.totalCount inp.limit := by
    simp [lastPageOf, hd, htc]
  refine ⟨⟨isFirstDisabled inp.page, isPrevDisabled inp.page,
      paginationItems inp.page (lastPageOf inp.data inp.limit),
      isNextDisabled inp.page (lastPageOf inp.data inp.limit),
      isLastDisabled inp.page (lastPageOf inp.data inp.limit)⟩,
    ?_, ?_, ?_, ?_, ?_, ?_, ?_⟩
  · simp [renderPage, hd, htc]
  · exact jsEq_some_iff inp.page 1
  · exact jsEq_some_iff inp.page 1
  · rw [hlast]
    exact jsEq_some_iff inp.page _
  · rw [hlast]
    exact jsEq_some_iff inp.page _
  · exact (ceilDiv_spec _ _ (Nat.pos_of_ne_zero htc) hl).1
  · exact (ceilDiv_spec _ _ (Nat.pos_of_ne_zero htc) hl).2

/-- A concrete non-error render state: 25 records, page size 10, page 1. -/
def sampleData : PhotosData := ⟨[], 25⟩

/-- A concrete non-error render input over `sampleData`. -/
def sampleInput : RenderInput :=
  { error := false, loading := false, data := some sampleData, search := "",
    page := some 1, limit := 10, selectedPhoto := none }

/-- A concrete render input whose query errored. -/
def sampleErrorInput : RenderInput :=
  { error := true, loading := false, data := none, search := "",
    page := some 1, limit := 10, selectedPhoto := none }

/-- A second, different render input whose query errored. -/
def sampleErrorInput2 : RenderInput :=
  { error := true, loading := true, data := none, search := "a",
    page := some 2, limit := 10, selectedPhoto := none }

/-- Witness for C2: with 25 records, page size 10 and current page 1, the
pagination block is rendered. -/
theorem pagination_disabled_at_boundaries_witness :
    (renderPage sampleInput).pagination ≠ none := by
  obtain ⟨pg, h1, -, -, -, -, -, -⟩ :=
    pagination_disabled_at_boundaries sampleInput sampleData rfl (by decide) (by decide)
  rw [h1]
  simp

/-- Claim C4: whenever the query has an error, the page renders the bare static
`Error` paragraph — the same view for every such state, never the page view
with table, search box, pagination or modal — and performs nothing else. -/
theorem error_renders_static_message (inp inp2 : RenderInput)
    (h : inp.error = true) (h2 : inp2.error = true) :
    render inp = View.errorText "Error" ∧
    render inp = render inp2 ∧
    ∀ pv, render inp ≠ View.page pv := by
  have r1 : render inp = View.errorText "Error" := by simp [render, h]
  have r2 : render inp2 = View.errorText "Error" := by simp [render, h2]
  refine ⟨r1, by rw [r1, r2], fun pv hpv => ?_⟩
  rw [r1] at hpv
  exact View.noConfusion hpv

/-- Witness for C4 at a concrete erroring state. -/
theorem error_renders_static_message_witness :
    render sampleErrorInput = View.errorText "Error" :=
  (error_renders_static_message sampleErrorInput sampleErrorInput2 rfl rfl).1

/-- Claim C7: selecting a row sets `selectedPhoto` to that photo, after which
the modal is shown with the photo's full-size `url` as image source; hiding
the modal resets `selectedPhoto` to `null`; and the modal is shown iff a photo
is selected. -/
theorem modal_shows_selected_photo (inp : RenderInput) (p : Photo) :
    handleSelectPhoto p = some p ∧
    handleModalHide = (none : Option Photo) ∧
    (renderPage { inp with selectedPhoto := handleSelectPhoto p }).modalShow = true ∧
    (renderPage { inp with selectedPhoto := handleSelectPhoto p }).modalSrc = some p.url ∧
    (renderPage { inp with selectedPhoto := handleModalHide }).modalShow = false ∧
    ((renderPage inp).modalShow = true ↔ ∃ ph, inp.selectedPhoto = some ph) := by
  refine ⟨rfl, rfl, rfl, rfl, rfl, ?_⟩
  simp [renderPage, Option.isSome_iff_exists]

/-- Claim C1: in every reachable debounce state, if the local search differs
from the URL `q` a timer is pending and every pending timer has a 500 ms
delay; firing it while they differ pushes `/?q=<search>&page=1` and makes the
URL `q` equal the search; firing while they are equal navigates nowhere; and
a search-input step only ever pushes the old URL `q` (with page reset to 1),
never the new search term. -/
theorem debounce_search_navigation (q0 : String) (st : DState) (h : Reachable q0 st) :
    (st.search ≠ st.q → st.pending ≠ []) ∧
    (∀ t, t ∈ st.pending → t.delay = 500) ∧
    (∀ t, t ∈ st.pending → st.search ≠ st.q →
      (stepFire st t).2 = some ⟨st.search, some 1⟩ ∧ (stepFire st t).1.q = st.search) ∧
    (st.search = st.q → ∀ t, (stepFire st t).2 = none) ∧
    (∀ s nav, (stepInput st s).2 = some nav → nav = ⟨st.q, some 1⟩) := by
  obtain ⟨hg, hs⟩ := reachable_good h
  refine ⟨hs, ?_, ?_, ?_, ?_⟩
  · intro t ht
    rcases hg with hp | ⟨u, hp, -, hd⟩
    · rw [hp] at ht
      simp at ht
    · rw [hp] at ht
      have : t = u := by simpa using ht
      rw [this]
      exact hd
  · intro t ht hne
    unfold stepFire
    rw [if_pos ht, if_neg hne]
    exact ⟨rfl, by simp [schedule]⟩
  · intro heq t
    unfold stepFire
    by_cases ht : t ∈ st.pending
    · rw [if_pos ht, if_pos heq]
    · rw [if_neg ht]
  · intro s nav hnav
    unfold stepInput at hnav
    by_cases hss : s = st.search
    · rw [if_pos hss] at hnav
      exact (Option.some_inj.mp hnav).symm
    · rw [if_neg hss] at hnav
      exact (Option.some_inj.mp hnav).symm

/-- Witness for C1 at the initial state (search equal to URL `q`): the timer
fires without navigating. -/
theorem debounce_search_navigation_witness :
    (stepFire (initState "") ⟨0, 500⟩).2 = none :=
  (debounce_search_navigation "" (initState "") Reachable.init).2.2.2.1 rfl ⟨0, 500⟩

/-- Claim C6: in every reachable debounce state at most one timer is pending —
each effect re-run clears the previously scheduled timer before scheduling a
new one. -/
theorem at_most_one_pending_timer (q0 : String) (st : DState) (h : Reachable q0 st) :
    st.pending.length ≤ 1 := by
  rcases (reachable_good h).1 with hp | ⟨t, hp, -, -⟩ <;> simp [hp]

/-- Witness for C6 at the initial state. -/
theorem at_most_one_pending_timer_witness : (initState "").pending.length ≤ 1 :=
  at_most_one_pending_timer "" (initState "") Reachable.init

end NextApollo
